import Mathlib

/-!
# Verification of the MMORPG browser client (`src/game.js`)

A shallow embedding of the `GameClient` class: JavaScript numbers are
modelled as rationals (`ℚ`), JavaScript `Map`s as insertion-ordered
association lists (`Map.set` replaces in place or appends, `Map.delete`
removes the entry), and the canvas 2D context as a trace of draw calls
emitted by the render pass.  Image loads are modelled as succeeding, so
an `img.onload` callback body contributes its draw calls at the point the
load is requested.  JavaScript truthiness tests on strings (`!player.avatar`,
`!username`, `!frames[frameIndex]`) are modelled as emptiness tests, and
`x || d` defaulting as `Option.getD`.
-/

namespace MmoClient

/-- A player record as carried by the server protocol: id, username,
world position, facing direction, animation frame index and avatar name.
`facing`, `animationFrame` and `avatar` may be absent (JS `undefined`). -/
structure Player where
  id : String
  username : String
  x : ℚ
  y : ℚ
  facing : Option String
  animationFrame : Option Nat
  avatar : Option String
deriving Repr, DecidableEq

/-- An avatar definition: a name and, per facing direction, an ordered
sequence of image references (base64 frame data in the real client). -/
structure AvatarData where
  name : String
  frames : List (String × List String)
deriving Repr, DecidableEq

/-- Models `Map.get`: first (and only, since `setEntry` never duplicates a key)
binding of `key`. -/
def lookupEntry {α : Type} : List (String × α) → String → Option α
  | [], _ => none
  | (k, v) :: rest, key => if k = key then some v else lookupEntry rest key

/-- Models `Map.set`: replace the binding of `key` in place if present,
otherwise append it (JS `Map` preserves insertion order). -/
def setEntry {α : Type} (key : String) (value : α) : List (String × α) → List (String × α)
  | [] => [(key, value)]
  | (k, v) :: rest => if k = key then (key, value) :: rest else (k, v) :: setEntry key value rest

/-- Models `Map.delete`: remove the binding of `key` if present. -/
def eraseKey {α : Type} (key : String) : List (String × α) → List (String × α)
  | [] => []
  | (k, v) :: rest => if k = key then rest else (k, v) :: eraseKey key rest

/-- One draw call issued against the canvas 2D context. -/
inductive DrawCall where
  | clearRect (x y w h : ℚ)
  | worldImage (sx sy sw sh dx dy dw dh : ℚ)
  | avatarImage (frameRef : String) (dx dy dw dh : ℚ)
  | strokeLabel (text : String) (x y : ℚ)
  | fillLabel (text : String) (x y : ℚ)
deriving Repr, DecidableEq

/-- An outbound protocol message sent over the WebSocket. -/
inductive OutMsg where
  | join (username : String)
  | move (direction : String)
  | stop
deriving Repr, DecidableEq

/-- The mutable fields of `GameClient`.  `worldImage` records whether the
world image object is non-null (loaded); `myPlayerId`/`myPlayer` are `null`
able; `keysPressed` is the key `Set` in insertion order (no duplicates by
construction); canvas dimensions are the drawing surface size. -/
structure ClientState where
  worldImage : Bool
  worldWidth : ℚ
  worldHeight : ℚ
  connected : Bool
  myPlayerId : Option String
  myPlayer : Option Player
  players : List (String × Player)
  avatars : List (String × AvatarData)
  keysPressed : List String
  viewportX : ℚ
  viewportY : ℚ
  avatarSize : ℚ
  canvasWidth : ℚ
  canvasHeight : ℚ
deriving Repr, DecidableEq

/-- The `GameClient` constructor state (before any network traffic), for a
surface of the given dimensions. -/
def initState (cw ch : ℚ) : ClientState :=
  { worldImage := false
    worldWidth := 2048
    worldHeight := 2048
    connected := false
    myPlayerId := none
    myPlayer := none
    players := []
    avatars := []
    keysPressed := []
    viewportX := 0
    viewportY := 0
    avatarSize := 32
    canvasWidth := cw
    canvasHeight := ch }

/-- Models `GameClient.updateViewport`: center the viewport on `myPlayer` and clamp
to world boundaries; no-op when `myPlayer` is null. -/
def updateViewport (s : ClientState) : ClientState :=
  match s.myPlayer with
  | none => s
  | some p =>
    let centerX := p.x - s.canvasWidth / 2
    let centerY := p.y - s.canvasHeight / 2
    { s with
      viewportX := max 0 (min centerX (s.worldWidth - s.canvasWidth))
      viewportY := max 0 (min centerY (s.worldHeight - s.canvasHeight)) }

/-- The `startX` of the world-image source rectangle in `GameClient.drawWorld`. -/
def sourceStartX (s : ClientState) : ℚ := max 0 s.viewportX

/-- The `startY` of the world-image source rectangle in `GameClient.drawWorld`. -/
def sourceStartY (s : ClientState) : ℚ := max 0 s.viewportY

/-- The `endX` of the world-image source rectangle in `GameClient.drawWorld`. -/
def sourceEndX (s : ClientState) : ℚ := min s.worldWidth (s.viewportX + s.canvasWidth)

/-- The `endY` of the world-image source rectangle in `GameClient.drawWorld`. -/
def sourceEndY (s : ClientState) : ℚ := min s.worldHeight (s.viewportY + s.canvasHeight)

/-- Models `GameClient.drawUsernameLabel`: outline stroke then fill, centered above
the avatar; no-op for a falsy (empty) username. -/
def drawUsernameLabel (s : ClientState) (username : String) (x y : ℚ) : List DrawCall :=
  if username = "" then []
  else
    [DrawCall.strokeLabel username x (y - s.avatarSize / 2 - 5),
     DrawCall.fillLabel username x (y - s.avatarSize / 2 - 5)]

/-- The direction `player.facing || 'south'` used for the frame lookup in
`GameClient.drawAvatar` (absent or empty `facing` is falsy in JS). -/
def facingDirection (player : Player) : String :=
  match player.facing with
  | none => "south"
  | some f => if f = "" then "south" else f

/-- Models `GameClient.drawAvatar`: look up the avatar, compute the screen
position, cull off-screen avatars, select the frame for the facing
direction, and (when the frame image loads) draw the avatar followed by
the username label. -/
def drawAvatar (s : ClientState) (player : Player) : List DrawCall :=
  match player.avatar with
  | none => []
  | some avatarName =>
    if avatarName = "" then []
    else
      match lookupEntry s.avatars avatarName with
      | none => []
      | some avatarData =>
        let screenX := player.x - s.viewportX
        let screenY := player.y - s.viewportY
        if screenX < -s.avatarSize ∨ screenX > s.canvasWidth + s.avatarSize ∨
            screenY < -s.avatarSize ∨ screenY > s.canvasHeight + s.avatarSize then []
        else
          let direction := facingDirection player
          let frameIndex := player.animationFrame.getD 0
          match lookupEntry avatarData.frames direction with
          | none => []
          | some frames =>
            match frames.get? frameIndex with
            | none => []
            | some frameRef =>
              if frameRef = "" then []
              else
                DrawCall.avatarImage frameRef (screenX - s.avatarSize / 2)
                    (screenY - s.avatarSize / 2) s.avatarSize s.avatarSize
                  :: drawUsernameLabel s player.username screenX screenY

/-- Models `GameClient.drawAvatars`: draw every player in map iteration order. -/
def drawAvatars (s : ClientState) : List DrawCall :=
  (s.players.map (fun e => drawAvatar s e.2)).flatten

/-- Models `GameClient.drawWorld`: when the world image is loaded, clear the
canvas, recompute the viewport, blit the visible world sub-rectangle and
run the avatar pass. -/
def drawWorld (s : ClientState) : ClientState × List DrawCall :=
  if s.worldImage = false then (s, [])
  else
    let s1 := updateViewport s
    let sw := sourceEndX s1 - sourceStartX s1
    let sh := sourceEndY s1 - sourceStartY s1
    (s1,
      DrawCall.clearRect 0 0 s.canvasWidth s.canvasHeight
        :: DrawCall.worldImage (sourceStartX s1) (sourceStartY s1) sw sh 0 0 sw sh
        :: drawAvatars s1)

/-- One iteration of the update loop shared by `handlePlayersMoved` and
`handleJoinGameResponse`: store the record and refresh `myPlayer` when the
id matches `myPlayerId`. -/
def applyMovedEntry (s : ClientState) (entry : String × Player) : ClientState :=
  let s1 := { s with players := setEntry entry.1 entry.2 s.players }
  if s1.myPlayerId = some entry.1 then { s1 with myPlayer := some entry.2 } else s1

/-- Models `GameClient.handlePlayersMoved`: upsert every entry of the message,
then redraw. -/
def handlePlayersMoved (s : ClientState) (moved : List (String × Player)) :
    ClientState × List DrawCall :=
  drawWorld (moved.foldl applyMovedEntry s)

/-- Models `GameClient.handlePlayerJoined`: store the player and its avatar
definition (no redraw is requested by this handler). -/
def handlePlayerJoined (s : ClientState) (player : Player) (avatar : AvatarData) :
    ClientState × List DrawCall :=
  ({ s with
      players := setEntry player.id player s.players
      avatars := setEntry avatar.name avatar s.avatars }, [])

/-- Models `GameClient.handlePlayerLeft`: delete the player (no redraw is
requested by this handler). -/
def handlePlayerLeft (s : ClientState) (playerId : String) : ClientState × List DrawCall :=
  ({ s with players := eraseKey playerId s.players }, [])

/-- The payload of a successful `join_game` response. -/
structure JoinResponse where
  playerId : String
  players : List (String × Player)
  avatars : List (String × AvatarData)
deriving Repr, DecidableEq

/-- Models `GameClient.handleJoinGameResponse`: record the assigned id, bulk-load
players (caching `myPlayer` on id match) and avatars, then redraw. -/
def handleJoinGameResponse (s : ClientState) (msg : JoinResponse) :
    ClientState × List DrawCall :=
  let s0 := { s with myPlayerId := some msg.playerId }
  let s1 := msg.players.foldl applyMovedEntry s0
  let s2 := { s1 with avatars := msg.avatars.foldl (fun m e => setEntry e.1 e.2 m) s1.avatars }
  drawWorld s2

/-- The `movementKeys` table mapping key codes to directions. -/
def movementKeys (code : String) : Option String :=
  if code = "ArrowUp" then some "up"
  else if code = "ArrowDown" then some "down"
  else if code = "ArrowLeft" then some "left"
  else if code = "ArrowRight" then some "right"
  else none

/-- Models `GameClient.startMovement`: send a `move` intent unless disconnected. -/
def startMovement (s : ClientState) (direction : String) : List OutMsg :=
  if s.connected = true then [OutMsg.move direction] else []

/-- Models `GameClient.stopMovement`: send a `stop` intent only when connected and
no movement keys remain pressed. -/
def stopMovement (s : ClientState) : List OutMsg :=
  if s.connected = true ∧ s.keysPressed = [] then [OutMsg.stop] else []

/-- A raw keyboard event delivered to the document listeners. -/
inductive KeyEvent where
  | keydown (code : String)
  | keyup (code : String)
deriving Repr, DecidableEq

/-- The `keydown` listener: on a recognized movement key not already held,
add it to the held set and start moving in its direction. -/
def handleKeydown (s : ClientState) (code : String) : ClientState × List OutMsg :=
  match movementKeys code with
  | none => (s, [])
  | some direction =>
    if code ∈ s.keysPressed then (s, [])
    else
      let s1 := { s with keysPressed := s.keysPressed ++ [code] }
      (s1, startMovement s1 direction)

/-- The `keyup` listener: on a recognized movement key, remove it from the
held set and invoke `stopMovement`. -/
def handleKeyup (s : ClientState) (code : String) : ClientState × List OutMsg :=
  match movementKeys code with
  | none => (s, [])
  | some _ =>
    let s1 := { s with keysPressed := s.keysPressed.erase code }
    (s1, stopMovement s1)

/-- Dispatch one keyboard event to the matching listener. -/
def processKeyEvent (s : ClientState) (e : KeyEvent) : ClientState × List OutMsg :=
  match e with
  | KeyEvent.keydown code => handleKeydown s code
  | KeyEvent.keyup code => handleKeyup s code

/-- Process a sequence of keyboard events, concatenating the outbound
messages they emit. -/
def runEvents (s : ClientState) : List KeyEvent → ClientState × List OutMsg
  | [] => (s, [])
  | e :: rest =>
    let r := processKeyEvent s e
    let r2 := runEvents r.1 rest
    (r2.1, r.2 ++ r2.2)

/-- The `ws.onclose` handler: mark the session disconnected. -/
def onClose (s : ClientState) : ClientState := { s with connected := false }

/-- The `ws.onerror` handler: log only; no state change. -/
def onError (s : ClientState) : ClientState := s

/-- Spec-side definition (from the spec's culling wording, for comparison
with the code's test in `drawAvatar`): the avatar's bounding box, centered
at the given screen position with side `avatarSize`, is fully outside the
surface rectangle expanded by half the avatar size on every side. -/
def bboxFullyOutsideSpec (s : ClientState) (screenX screenY : ℚ) : Prop :=
  screenX + s.avatarSize / 2 < -(s.avatarSize / 2) ∨
  screenX - s.avatarSize / 2 > s.canvasWidth + s.avatarSize / 2 ∨
  screenY + s.avatarSize / 2 < -(s.avatarSize / 2) ∨
  screenY - s.avatarSize / 2 > s.canvasHeight + s.avatarSize / 2

/-! ## Association-list store lemmas -/

theorem lookupEntry_setEntry_self {α : Type} (k : String) (v : α) (m : List (String × α)) :
    lookupEntry (setEntry k v m) k = some v := by
  induction m with
  | nil => simp [setEntry, lookupEntry]
  | cons e rest ih =>
    obtain ⟨k1, v1⟩ := e
    by_cases h : k1 = k
    · simp [setEntry, h, lookupEntry]
    · simp [setEntry, h, lookupEntry, ih]

theorem lookupEntry_setEntry_ne {α : Type} (k key : String) (v : α) (m : List (String × α))
    (h : k ≠ key) : lookupEntry (setEntry k v m) key = lookupEntry m key := by
  induction m with
  | nil => simp [setEntry, lookupEntry, h]
  | cons e rest ih =>
    obtain ⟨k1, v1⟩ := e
    by_cases h1 : k1 = k
    · subst h1
      simp [setEntry, lookupEntry, h]
    · simp [setEntry, h1, lookupEntry, ih]

theorem setEntry_idem {α : Type} (k : String) (v : α) (m : List (String × α)) :
    setEntry k v (setEntry k v m) = setEntry k v m := by
  induction m with
  | nil => simp [setEntry]
  | cons e rest ih =>
    obtain ⟨k1, v1⟩ := e
    by_cases h : k1 = k
    · simp [setEntry, h]
    · simp [setEntry, h, ih]

/-- The shared update-loop body rewritten as a single record update. -/
theorem applyMovedEntry_eq (s : ClientState) (e : String × Player) :
    applyMovedEntry s e =
      { s with
        players := setEntry e.1 e.2 s.players
        myPlayer := if s.myPlayerId = some e.1 then some e.2 else s.myPlayer } := by
  by_cases h : s.myPlayerId = some e.1 <;> simp [applyMovedEntry, h]

/-- Folding the update loop only touches `players` and `myPlayer`. -/
theorem foldl_applyMovedEntry_fields (entries : List (String × Player)) (s : ClientState) :
    (entries.foldl applyMovedEntry s).myPlayerId = s.myPlayerId ∧
    (entries.foldl applyMovedEntry s).avatars = s.avatars ∧
    (entries.foldl applyMovedEntry s).worldImage = s.worldImage ∧
    (entries.foldl applyMovedEntry s).canvasWidth = s.canvasWidth ∧
    (entries.foldl applyMovedEntry s).canvasHeight = s.canvasHeight := by
  induction entries generalizing s with
  | nil => simp
  | cons e rest ih =>
    rw [List.foldl_cons]
    obtain ⟨h1, h2, h3, h4, h5⟩ := ih (applyMovedEntry s e)
    rw [h1, h2, h3, h4, h5, applyMovedEntry_eq]
    exact ⟨rfl, rfl, rfl, rfl, rfl⟩

/-- The `players` map after the update loop is the fold of plain upserts. -/
theorem foldl_applyMovedEntry_players (entries : List (String × Player)) (s : ClientState) :
    (entries.foldl applyMovedEntry s).players
      = entries.foldl (fun m e => setEntry e.1 e.2 m) s.players := by
  induction entries generalizing s with
  | nil => simp
  | cons e rest ih =>
    rw [List.foldl_cons, List.foldl_cons, ih (applyMovedEntry s e), applyMovedEntry_eq]

theorem lookupEntry_foldl_setEntry_not_mem {α : Type} (entries : List (String × α))
    (m : List (String × α)) (id : String) (h : id ∉ entries.map Prod.fst) :
    lookupEntry (entries.foldl (fun acc e => setEntry e.1 e.2 acc) m) id = lookupEntry m id := by
  induction entries generalizing m with
  | nil => simp
  | cons e rest ih =>
    have hne : id ≠ e.1 := fun hc => h (by simp [hc])
    have hrest : id ∉ rest.map Prod.fst := fun hc => h (by simp [hc])
    rw [List.foldl_cons, ih _ hrest, lookupEntry_setEntry_ne _ _ _ _ (fun hc => hne hc.symm)]

theorem lookupEntry_foldl_setEntry_mem {α : Type} (entries : List (String × α))
    (m : List (String × α)) (id : String) (v : α)
    (hnd : (entries.map Prod.fst).Nodup) (hmem : (id, v) ∈ entries) :
    lookupEntry (entries.foldl (fun acc e => setEntry e.1 e.2 acc) m) id = some v := by
  induction entries generalizing m with
  | nil => cases hmem
  | cons e rest ih =>
    rw [List.map_cons, List.nodup_cons] at hnd
    obtain ⟨hhead, hrest⟩ := hnd
    rw [List.foldl_cons]
    rcases List.mem_cons.mp hmem with heq | hmemrest
    · subst heq
      have hnot : id ∉ rest.map Prod.fst := hhead
      rw [lookupEntry_foldl_setEntry_not_mem _ _ _ hnot, lookupEntry_setEntry_self]
    · exact ih _ hrest hmemrest

/-- If the local id matches none of the entries, the update loop keeps the
cached `myPlayer` (it can only rewrite it on an id match). -/
theorem myPlayer_foldl_applyMovedEntry_not_mem (entries : List (String × Player))
    (s : ClientState) (id : String) (hid : s.myPlayerId = some id)
    (h : id ∉ entries.map Prod.fst) :
    (entries.foldl applyMovedEntry s).myPlayer = s.myPlayer := by
  induction entries generalizing s with
  | nil => simp
  | cons e rest ih =>
    have hne : id ≠ e.1 := fun hc => h (by simp [hc])
    have hrest : id ∉ rest.map Prod.fst := fun hc => h (by simp [hc])
    rw [List.foldl_cons]
    have hm : (applyMovedEntry s e).myPlayer = s.myPlayer := by
      rw [applyMovedEntry_eq]
      have hno : ¬(s.myPlayerId = some e.1) := by
        rw [hid]
        intro hc
        exact hne (Option.some_injective _ hc)
      simp [hno]
    have hmid : (applyMovedEntry s e).myPlayerId = some id := by
      rw [applyMovedEntry_eq]
      exact hid
    rw [ih _ hmid hrest, hm]

/-- If the local id appears (once) among the entries, the update loop caches
that entry as `myPlayer`. -/
theorem myPlayer_foldl_applyMovedEntry_mem (entries : List (String × Player))
    (s : ClientState) (id : String) (p : Player)
    (hnd : (entries.map Prod.fst).Nodup) (hmem : (id, p) ∈ entries)
    (hid : s.myPlayerId = some id) :
    (entries.foldl applyMovedEntry s).myPlayer = some p := by
  induction entries generalizing s with
  | nil => cases hmem
  | cons e rest ih =>
    rw [List.map_cons, List.nodup_cons] at hnd
    obtain ⟨hhead, hrest⟩ := hnd
    rw [List.foldl_cons]
    rcases List.mem_cons.mp hmem with heq | hmemrest
    · subst heq
      have hstep : (applyMovedEntry s (id, p)).myPlayer = some p := by
        rw [applyMovedEntry_eq]
        simp [hid]
      have hmid : (applyMovedEntry s (id, p)).myPlayerId = some id := by
        rw [applyMovedEntry_eq]
        exact hid
      rw [myPlayer_foldl_applyMovedEntry_not_mem rest _ id hmid hhead, hstep]
    · have hmid : (applyMovedEntry s e).myPlayerId = some id := by
        rw [applyMovedEntry_eq]
        exact hid
      exact ih _ hrest hmemrest hmid

/-! ## Render-pass state lemmas -/

/-- Lemma: `updateViewport` only writes the two viewport fields. -/
theorem updateViewport_fields (s : ClientState) :
    (updateViewport s).players = s.players ∧
    (updateViewport s).myPlayer = s.myPlayer ∧
    (updateViewport s).myPlayerId = s.myPlayerId ∧
    (updateViewport s).avatars = s.avatars ∧
    (updateViewport s).worldWidth = s.worldWidth ∧
    (updateViewport s).worldHeight = s.worldHeight ∧
    (updateViewport s).canvasWidth = s.canvasWidth ∧
    (updateViewport s).canvasHeight = s.canvasHeight := by
  cases h : s.myPlayer <;> simp [updateViewport, h]

/-- Lemma: `drawWorld` only writes the two viewport fields of the state. -/
theorem drawWorld_fst_fields (s : ClientState) :
    (drawWorld s).1.players = s.players ∧
    (drawWorld s).1.myPlayer = s.myPlayer ∧
    (drawWorld s).1.myPlayerId = s.myPlayerId ∧
    (drawWorld s).1.avatars = s.avatars := by
  obtain ⟨h1, h2, h3, h4, _⟩ := updateViewport_fields s
  by_cases h : s.worldImage = false <;> simp [drawWorld, h, h1, h2, h3, h4]

/-! ## C8 -/

/-- C8: Applying the same `player_joined` message twice to the state
(player store and avatar store) yields exactly the same store contents as
applying it once. -/
theorem playerJoined_idempotent (s : ClientState) (p : Player) (a : AvatarData) :
    (handlePlayerJoined (handlePlayerJoined s p a).1 p a).1.players
        = (handlePlayerJoined s p a).1.players ∧
    (handlePlayerJoined (handlePlayerJoined s p a).1 p a).1.avatars
        = (handlePlayerJoined s p a).1.avatars := by
  simp [handlePlayerJoined, setEntry_idem]

/-! ## C9 -/

/-- A connected mid-session state used to exhibit the close/error behavior. -/
def stateC9 : ClientState :=
  { worldImage := true
    worldWidth := 2048
    worldHeight := 2048
    connected := true
    myPlayerId := some "me"
    myPlayer := none
    players := []
    avatars := []
    keysPressed := []
    viewportX := 0
    viewportY := 0
    avatarSize := 32
    canvasWidth := 800
    canvasHeight := 600 }

/-- C9 counterexample: after the transport-close handler the LocalIdentity
is NOT cleared (`myPlayerId` is still set), and after the transport-error
handler the session has not even transitioned to Disconnected. -/
theorem transport_fault_counterexample :
    (onClose stateC9).myPlayerId = some "me" ∧ (onError stateC9).connected = true :=
  ⟨rfl, rfl⟩

/-- C9 amended: on transport close the session transitions to Disconnected
while LocalIdentity and the player and avatar stores are left unchanged;
on transport error the client state is entirely unchanged. -/
theorem transport_fault_behavior (s : ClientState) :
    (onClose s).connected = false ∧
    (onClose s).myPlayerId = s.myPlayerId ∧
    (onClose s).players = s.players ∧
    (onClose s).avatars = s.avatars ∧
    onError s = s :=
  ⟨rfl, rfl, rfl, rfl, rfl⟩

/-! ## C2 -/

/-- Concrete inputs for the redraw claim. -/
def playerC2 : Player :=
  { id := "p2", username := "bob", x := 50, y := 60, facing := some "south"
    animationFrame := some 0, avatar := some "knight" }

def avatarC2 : AvatarData := { name := "knight", frames := [("south", ["s0"])] }

def stateC2 : ClientState :=
  { worldImage := true
    worldWidth := 2048
    worldHeight := 2048
    connected := true
    myPlayerId := some "p1"
    myPlayer := none
    players := []
    avatars := []
    keysPressed := []
    viewportX := 0
    viewportY := 0
    avatarSize := 32
    canvasWidth := 800
    canvasHeight := 600 }

/-- C2 counterexample: even with the world image loaded, processing a
`player_joined` message and processing a `player_left` message each issue
zero draw calls — no redraw is requested after their state transitions. -/
theorem playerJoined_no_redraw_counterexample :
    stateC2.worldImage = true ∧
    (handlePlayerJoined stateC2 playerC2 avatarC2).2 = [] ∧
    (handlePlayerLeft stateC2 "p2").2 = [] :=
  ⟨rfl, rfl, rfl⟩

/-- C2 amended: only the `join_game`-response and `players_moved` handlers
request a full redraw (their draw output starts with the canvas clear);
the `player_joined` and `player_left` handlers apply their state
transitions without requesting any redraw. -/
theorem redraw_per_handler (s : ClientState) (moved : List (String × Player))
    (msg : JoinResponse) (p : Player) (a : AvatarData) (pid : String)
    (h : s.worldImage = true) :
    (handlePlayersMoved s moved).2.head? =
        some (DrawCall.clearRect 0 0 s.canvasWidth s.canvasHeight) ∧
    (handleJoinGameResponse s msg).2.head? =
        some (DrawCall.clearRect 0 0 s.canvasWidth s.canvasHeight) ∧
    (handlePlayerJoined s p a).2 = [] ∧
    (handlePlayerLeft s pid).2 = [] := by
  obtain ⟨hid1, hav1, hwi1, hcw1, hch1⟩ := foldl_applyMovedEntry_fields moved s
  refine ⟨?_, ?_, rfl, rfl⟩
  · have hw : (moved.foldl applyMovedEntry s).worldImage = true := by rw [hwi1, h]
    simp [handlePlayersMoved, drawWorld, hw, hcw1, hch1]
  · obtain ⟨hid2, hav2, hwi2, hcw2, hch2⟩ :=
      foldl_applyMovedEntry_fields msg.players { s with myPlayerId := some msg.playerId }
    have hw : (msg.players.foldl applyMovedEntry
        { s with myPlayerId := some msg.playerId }).worldImage = true := by rw [hwi2]; exact h
    simp [handleJoinGameResponse, drawWorld, hw, hcw2, hch2]

/-- C2 witness: the amended behavior at the concrete mid-session state. -/
theorem redraw_per_handler_witness :
    (handlePlayersMoved stateC2 [("p2", playerC2)]).2.head? =
        some (DrawCall.clearRect 0 0 stateC2.canvasWidth stateC2.canvasHeight) ∧
    (handleJoinGameResponse stateC2
        { playerId := "p1", players := [("p2", playerC2)], avatars := [] }).2.head? =
        some (DrawCall.clearRect 0 0 stateC2.canvasWidth stateC2.canvasHeight) ∧
    (handlePlayerJoined stateC2 playerC2 avatarC2).2 = [] ∧
    (handlePlayerLeft stateC2 "p9").2 = [] :=
  redraw_per_handler stateC2 [("p2", playerC2)]
    { playerId := "p1", players := [("p2", playerC2)], avatars := [] }
    playerC2 avatarC2 "p9" rfl

/-! ## C5 -/

/-- C5: a `players_moved` message referencing an id absent from the player
store is processed without error and leaves that player present afterward
with exactly the record carried by the message. -/
theorem playersMoved_inserts_unknown (s : ClientState) (moved : List (String × Player))
    (id : String) (p : Player)
    (hnd : (moved.map Prod.fst).Nodup) (hmem : (id, p) ∈ moved)
    (habs : lookupEntry s.players id = none) :
    lookupEntry (handlePlayersMoved s moved).1.players id = some p := by
  have h1 : (handlePlayersMoved s moved).1.players
      = (moved.foldl applyMovedEntry s).players := (drawWorld_fst_fields _).1
  rw [h1, foldl_applyMovedEntry_players]
  exact lookupEntry_foldl_setEntry_mem _ _ _ _ hnd hmem

/-- A ghost player never announced by a `player_joined` message. -/
def playerC5 : Player :=
  { id := "ghost", username := "casper", x := 10, y := 20, facing := some "north"
    animationFrame := some 1, avatar := some "sheet" }

def stateC5 : ClientState :=
  { worldImage := false
    worldWidth := 2048
    worldHeight := 2048
    connected := true
    myPlayerId := some "me"
    myPlayer := none
    players := []
    avatars := []
    keysPressed := []
    viewportX := 0
    viewportY := 0
    avatarSize := 32
    canvasWidth := 800
    canvasHeight := 600 }

/-- C5 witness: moving the unknown player "ghost" into an empty store. -/
theorem playersMoved_inserts_unknown_witness :
    lookupEntry (handlePlayersMoved stateC5 [("ghost", playerC5)]).1.players "ghost"
      = some playerC5 :=
  playersMoved_inserts_unknown stateC5 [("ghost", playerC5)] "ghost" playerC5
    (by decide) (List.Mem.head _) rfl

/-! ## C6 -/

/-- The stale record cached as the local player. -/
def playerC6old : Player :=
  { id := "me", username := "jasleen", x := 1, y := 2, facing := some "south"
    animationFrame := some 0, avatar := some "wiz" }

/-- A fresh record for the same id, as a `player_joined` would carry it. -/
def playerC6new : Player :=
  { id := "me", username := "jasleen-rejoined", x := 99, y := 2, facing := some "south"
    animationFrame := some 0, avatar := some "wiz" }

def avatarC6 : AvatarData := { name := "wiz", frames := [("south", ["w0"])] }

def stateC6 : ClientState :=
  { worldImage := true
    worldWidth := 2048
    worldHeight := 2048
    connected := true
    myPlayerId := some "me"
    myPlayer := some playerC6old
    players := [("me", playerC6old)]
    avatars := [("wiz", avatarC6)]
    keysPressed := []
    viewportX := 0
    viewportY := 0
    avatarSize := 32
    canvasWidth := 800
    canvasHeight := 600 }

/-- C6 counterexample: a `player_joined` upsert for the local player's own
id replaces the record in the player store but leaves the cached
local-player reference pointing at the stale record. -/
theorem playerJoined_stale_myPlayer_counterexample :
    stateC6.myPlayerId = some playerC6new.id ∧
    lookupEntry (handlePlayerJoined stateC6 playerC6new avatarC6).1.players "me"
        = some playerC6new ∧
    (handlePlayerJoined stateC6 playerC6new avatarC6).1.myPlayer = some playerC6old ∧
    playerC6new ≠ playerC6old := by
  refine ⟨rfl, ?_, rfl, ?_⟩
  · rfl
  · intro hc
    exact absurd (congrArg Player.username hc) (by decide)

/-- C6 amended: the `join_game`-response and `players_moved` upsert paths
refresh the cached local-player reference when the upserted id equals
LocalIdentity, but the `player_joined` path never touches it. -/
theorem upsert_paths_myPlayer (s : ClientState) (moved : List (String × Player))
    (msg : JoinResponse) (id : String) (p : Player) (pj : Player) (aj : AvatarData) :
    ((moved.map Prod.fst).Nodup → (id, p) ∈ moved → s.myPlayerId = some id →
      (handlePlayersMoved s moved).1.myPlayer = some p) ∧
    ((msg.players.map Prod.fst).Nodup → (id, p) ∈ msg.players → msg.playerId = id →
      (handleJoinGameResponse s msg).1.myPlayer = some p) ∧
    (handlePlayerJoined s pj aj).1.myPlayer = s.myPlayer := by
  refine ⟨?_, ?_, rfl⟩
  · intro hnd hmem hid
    have h1 : (handlePlayersMoved s moved).1.myPlayer
        = (moved.foldl applyMovedEntry s).myPlayer := (drawWorld_fst_fields _).2.1
    rw [h1]
    exact myPlayer_foldl_applyMovedEntry_mem _ _ _ _ hnd hmem hid
  · intro hnd hmem hid
    have hid0 : ({ s with myPlayerId := some msg.playerId } : ClientState).myPlayerId
        = some id := by rw [hid]
    have hfold : (msg.players.foldl applyMovedEntry
        { s with myPlayerId := some msg.playerId }).myPlayer = some p :=
      myPlayer_foldl_applyMovedEntry_mem _ _ _ _ hnd hmem hid0
    have h2 := (drawWorld_fst_fields
      { msg.players.foldl applyMovedEntry { s with myPlayerId := some msg.playerId } with
        avatars := msg.avatars.foldl (fun m e => setEntry e.1 e.2 m)
          (msg.players.foldl applyMovedEntry
            { s with myPlayerId := some msg.playerId }).avatars }).2.1
    rw [handleJoinGameResponse]
    rw [h2]
    exact hfold

/-- C6 witness: the amended behavior at concrete mid-session states. -/
theorem upsert_paths_myPlayer_witness :
    (handlePlayersMoved stateC6 [("me", playerC6new)]).1.myPlayer = some playerC6new ∧
    (handleJoinGameResponse stateC6
        { playerId := "me", players := [("me", playerC6new)], avatars := [] }).1.myPlayer
      = some playerC6new ∧
    (handlePlayerJoined stateC6 playerC6new avatarC6).1.myPlayer = stateC6.myPlayer :=
  ⟨(upsert_paths_myPlayer stateC6 [("me", playerC6new)]
      { playerId := "me", players := [("me", playerC6new)], avatars := [] }
      "me" playerC6new playerC6new avatarC6).1 (by decide) (List.Mem.head _) rfl,
   (upsert_paths_myPlayer stateC6 [("me", playerC6new)]
      { playerId := "me", players := [("me", playerC6new)], avatars := [] }
      "me" playerC6new playerC6new avatarC6).2.1 (by decide) (List.Mem.head _) rfl,
   (upsert_paths_myPlayer stateC6 [("me", playerC6new)]
      { playerId := "me", players := [("me", playerC6new)], avatars := [] }
      "me" playerC6new playerC6new avatarC6).2.2⟩

/-! ## C1 -/

/-- C1: for any local-player position, the recomputed viewport origin is
clamped into `[0, worldSize - surfaceSize]` on each axis where the surface
does not exceed the world, and pinned to exactly `0` on any axis where the
surface is larger than the world (no inverted clamp). -/
theorem updateViewport_clamped (s : ClientState) (p : Player) (h : s.myPlayer = some p) :
    ((s.canvasWidth ≤ s.worldWidth →
        0 ≤ (updateViewport s).viewportX ∧
          (updateViewport s).viewportX ≤ s.worldWidth - s.canvasWidth) ∧
      (s.worldWidth < s.canvasWidth → (updateViewport s).viewportX = 0)) ∧
    ((s.canvasHeight ≤ s.worldHeight →
        0 ≤ (updateViewport s).viewportY ∧
          (updateViewport s).viewportY ≤ s.worldHeight - s.canvasHeight) ∧
      (s.worldHeight < s.canvasHeight → (updateViewport s).viewportY = 0)) := by
  simp only [updateViewport, h]
  refine ⟨⟨fun hle => ⟨le_max_left 0 _, ?_⟩, fun hlt => ?_⟩,
          ⟨fun hle => ⟨le_max_left 0 _, ?_⟩, fun hlt => ?_⟩⟩
  · exact max_le (by linarith) (min_le_right _ _)
  · exact max_eq_left (le_of_lt (lt_of_le_of_lt (min_le_right _ _) (by linarith)))
  · exact max_le (by linarith) (min_le_right _ _)
  · exact max_eq_left (le_of_lt (lt_of_le_of_lt (min_le_right _ _) (by linarith)))

/-- The local player of the end-to-end scenario of the spec (surface
800 x 600, position (100, 100)). -/
def playerC1 : Player :=
  { id := "A", username := "alice", x := 100, y := 100, facing := some "south"
    animationFrame := some 0, avatar := some "wiz" }

def stateC1 : ClientState :=
  { worldImage := true
    worldWidth := 2048
    worldHeight := 2048
    connected := true
    myPlayerId := some "A"
    myPlayer := some playerC1
    players := [("A", playerC1)]
    avatars := []
    keysPressed := []
    viewportX := 0
    viewportY := 0
    avatarSize := 32
    canvasWidth := 800
    canvasHeight := 600 }

/-- C1 witness: the clamp at the spec's end-to-end scenario. -/
theorem updateViewport_clamped_witness :
    (0 ≤ (updateViewport stateC1).viewportX ∧
      (updateViewport stateC1).viewportX ≤ stateC1.worldWidth - stateC1.canvasWidth) ∧
    (0 ≤ (updateViewport stateC1).viewportY ∧
      (updateViewport stateC1).viewportY ≤ stateC1.worldHeight - stateC1.canvasHeight) :=
  ⟨((updateViewport_clamped stateC1 playerC1 rfl).1).1 (by decide),
   ((updateViewport_clamped stateC1 playerC1 rfl).2).1 (by decide)⟩

/-! ## C10 -/

/-- C10: after `updateViewport`, the world-image source rectangle computed
by the world draw pass lies inside `[0, worldWidth] x [0, worldHeight]` and
has non-negative extent on both axes. -/
theorem sourceRect_within_world (s : ClientState) (p : Player)
    (h : s.myPlayer = some p) (hcw : 0 ≤ s.canvasWidth) (hch : 0 ≤ s.canvasHeight)
    (hww : 0 ≤ s.worldWidth) (hwh : 0 ≤ s.worldHeight) :
    (0 ≤ sourceStartX (updateViewport s) ∧
      sourceEndX (updateViewport s) ≤ s.worldWidth ∧
      sourceStartX (updateViewport s) ≤ sourceEndX (updateViewport s)) ∧
    (0 ≤ sourceStartY (updateViewport s) ∧
      sourceEndY (updateViewport s) ≤ s.worldHeight ∧
      sourceStartY (updateViewport s) ≤ sourceEndY (updateViewport s)) := by
  simp only [updateViewport, h, sourceStartX, sourceStartY, sourceEndX, sourceEndY]
  constructor
  · have hvx0 : (0:ℚ) ≤ max 0 (min (p.x - s.canvasWidth / 2)
        (s.worldWidth - s.canvasWidth)) := le_max_left 0 _
    have hvxw : max 0 (min (p.x - s.canvasWidth / 2) (s.worldWidth - s.canvasWidth))
        ≤ s.worldWidth :=
      max_le hww (le_trans (min_le_right _ _) (by linarith))
    refine ⟨le_max_left 0 _, min_le_left _ _, ?_⟩
    exact max_le (le_min hww (by linarith)) (le_min hvxw (by linarith))
  · have hvy0 : (0:ℚ) ≤ max 0 (min (p.y - s.canvasHeight / 2)
        (s.worldHeight - s.canvasHeight)) := le_max_left 0 _
    have hvyw : max 0 (min (p.y - s.canvasHeight / 2) (s.worldHeight - s.canvasHeight))
        ≤ s.worldHeight :=
      max_le hwh (le_trans (min_le_right _ _) (by linarith))
    refine ⟨le_max_left 0 _, min_le_left _ _, ?_⟩
    exact max_le (le_min hwh (by linarith)) (le_min hvyw (by linarith))

/-- The local player for the source-rectangle witness, placed past the
world's edge so the clamp actually engages. -/
def playerC10 : Player :=
  { id := "B", username := "bea", x := 2000, y := 2000, facing := some "south"
    animationFrame := some 0, avatar := some "wiz" }

def stateC10 : ClientState :=
  { worldImage := true
    worldWidth := 2048
    worldHeight := 2048
    connected := true
    myPlayerId := some "B"
    myPlayer := some playerC10
    players := [("B", playerC10)]
    avatars := []
    keysPressed := []
    viewportX := 0
    viewportY := 0
    avatarSize := 32
    canvasWidth := 800
    canvasHeight := 600 }

/-- C10 witness: the source rectangle stays inside the world at a corner
position. -/
theorem sourceRect_within_world_witness :
    (0 ≤ sourceStartX (updateViewport stateC10) ∧
      sourceEndX (updateViewport stateC10) ≤ stateC10.worldWidth ∧
      sourceStartX (updateViewport stateC10) ≤ sourceEndX (updateViewport stateC10)) ∧
    (0 ≤ sourceStartY (updateViewport stateC10) ∧
      sourceEndY (updateViewport stateC10) ≤ stateC10.worldHeight ∧
      sourceStartY (updateViewport stateC10) ≤ sourceEndY (updateViewport stateC10)) :=
  sourceRect_within_world stateC10 playerC10 rfl (by decide) (by decide)
    (by decide) (by decide)

/-! ## C7 -/

/-- C7: a `stop` intent is emitted only when the held-key set has become
empty; in particular, pressing two distinct movement keys and releasing
only one emits no `stop`, and `stop` is emitted once the second is also
released. -/
theorem stop_only_when_no_keys (s : ClientState) (e : KeyEvent) (k1 k2 d1 d2 : String) :
    (OutMsg.stop ∈ (processKeyEvent s e).2 → (processKeyEvent s e).1.keysPressed = []) ∧
    (k1 ≠ k2 → movementKeys k1 = some d1 → movementKeys k2 = some d2 →
      s.keysPressed = [] → s.connected = true →
      (OutMsg.stop ∉ (runEvents s
          [KeyEvent.keydown k1, KeyEvent.keydown k2, KeyEvent.keyup k1]).2 ∧
        OutMsg.stop ∈ (runEvents s
          [KeyEvent.keydown k1, KeyEvent.keydown k2, KeyEvent.keyup k1,
            KeyEvent.keyup k2]).2)) := by
  constructor
  · cases e with
    | keydown c =>
      intro hmem
      exfalso
      cases hm : movementKeys c with
      | none => simp [processKeyEvent, handleKeydown, hm] at hmem
      | some dir =>
        by_cases hc : c ∈ s.keysPressed
        · simp [processKeyEvent, handleKeydown, hm, hc] at hmem
        · by_cases hcon : s.connected = true
          · simp [processKeyEvent, handleKeydown, hm, hc, startMovement, hcon] at hmem
          · simp [processKeyEvent, handleKeydown, hm, hc, startMovement, hcon] at hmem
    | keyup c =>
      intro hmem
      cases hm : movementKeys c with
      | none => simp [processKeyEvent, handleKeyup, hm] at hmem
      | some dir =>
        simp only [processKeyEvent, handleKeyup, hm] at hmem ⊢
        simp only [stopMovement] at hmem
        by_cases hcond : s.connected = true ∧ s.keysPressed.erase c = []
        · exact hcond.2
        · rw [if_neg hcond] at hmem
          exact absurd hmem (List.not_mem_nil _)
  · intro hne hk1 hk2 hkp hcon
    have e1 : processKeyEvent s (KeyEvent.keydown k1)
        = ({ s with keysPressed := [k1] }, [OutMsg.move d1]) := by
      simp [processKeyEvent, handleKeydown, hk1, hkp, startMovement, hcon]
    have e2 : processKeyEvent { s with keysPressed := [k1] } (KeyEvent.keydown k2)
        = ({ s with keysPressed := [k1, k2] }, [OutMsg.move d2]) := by
      simp [processKeyEvent, handleKeydown, hk2, startMovement, hcon, Ne.symm hne]
    have e3 : processKeyEvent { s with keysPressed := [k1, k2] } (KeyEvent.keyup k1)
        = ({ s with keysPressed := [k2] }, []) := by
      simp [processKeyEvent, handleKeyup, hk1, stopMovement, List.erase_cons_head]
    have e4 : processKeyEvent { s with keysPressed := [k2] } (KeyEvent.keyup k2)
        = ({ s with keysPressed := [] }, [OutMsg.stop]) := by
      simp [processKeyEvent, handleKeyup, hk2, stopMovement, hcon, List.erase_cons_head]
    constructor
    · simp [runEvents, e1, e2, e3]
    · simp [runEvents, e1, e2, e3, e4]

/-- A connected state with no keys held, for the input-aggregation witness. -/
def stateC7 : ClientState :=
  { worldImage := false
    worldWidth := 2048
    worldHeight := 2048
    connected := true
    myPlayerId := some "me"
    myPlayer := none
    players := []
    avatars := []
    keysPressed := []
    viewportX := 0
    viewportY := 0
    avatarSize := 32
    canvasWidth := 800
    canvasHeight := 600 }

/-- A connected state holding only ArrowUp, for the release step. -/
def stateC7up : ClientState :=
  { stateC7 with keysPressed := ["ArrowUp"] }

/-- C7 witness: releasing the only held key empties the set whenever a stop
was sent, and the two-key press/release scenario on concrete arrow keys. -/
theorem stop_only_when_no_keys_witness :
    (processKeyEvent stateC7up (KeyEvent.keyup "ArrowUp")).1.keysPressed = [] ∧
    (OutMsg.stop ∉ (runEvents stateC7
        [KeyEvent.keydown "ArrowUp", KeyEvent.keydown "ArrowLeft",
          KeyEvent.keyup "ArrowUp"]).2 ∧
      OutMsg.stop ∈ (runEvents stateC7
        [KeyEvent.keydown "ArrowUp", KeyEvent.keydown "ArrowLeft",
          KeyEvent.keyup "ArrowUp", KeyEvent.keyup "ArrowLeft"]).2) :=
  ⟨(stop_only_when_no_keys stateC7up (KeyEvent.keyup "ArrowUp")
      "ArrowUp" "ArrowLeft" "up" "left").1 (by decide),
   (stop_only_when_no_keys stateC7 (KeyEvent.keyup "ArrowUp")
      "ArrowUp" "ArrowLeft" "up" "left").2 (by decide) rfl rfl rfl rfl⟩

/-! ## C3 -/

/-- A visible player whose animation frame index (5) exceeds the length of
its avatar's south frame sequence (3). -/
def playerC3 : Player :=
  { id := "p3", username := "carol", x := 100, y := 100, facing := some "south"
    animationFrame := some 5, avatar := some "wizard" }

def avatarC3 : AvatarData := { name := "wizard", frames := [("south", ["f0", "f1", "f2"])] }

def stateC3 : ClientState :=
  { worldImage := true
    worldWidth := 2048
    worldHeight := 2048
    connected := true
    myPlayerId := some "p3"
    myPlayer := some playerC3
    players := [("p3", playerC3)]
    avatars := [("wizard", avatarC3)]
    keysPressed := []
    viewportX := 0
    viewportY := 0
    avatarSize := 32
    canvasWidth := 800
    canvasHeight := 600 }

/-- C3 counterexample: an on-screen player with a non-empty frame sequence
and `animationFrame = 5` past the sequence length is silently not drawn at
all (zero draw calls), instead of being drawn with frame `5 mod 3`. -/
theorem drawAvatar_out_of_range_counterexample :
    playerC3.animationFrame = some 5 ∧
    lookupEntry avatarC3.frames (facingDirection playerC3) = some ["f0", "f1", "f2"] ∧
    ¬(playerC3.x - stateC3.viewportX < -stateC3.avatarSize ∨
        playerC3.x - stateC3.viewportX > stateC3.canvasWidth + stateC3.avatarSize ∨
        playerC3.y - stateC3.viewportY < -stateC3.avatarSize ∨
        playerC3.y - stateC3.viewportY > stateC3.canvasHeight + stateC3.avatarSize) ∧
    drawAvatar stateC3 playerC3 = [] := by
  refine ⟨rfl, rfl, ?_, ?_⟩
  · norm_num [playerC3, stateC3]
  · norm_num [drawAvatar, stateC3, playerC3, avatarC3, facingDirection, lookupEntry]

/-- C3 amended: for a visible player whose avatar and direction resolve to
a frame sequence, the frame drawn is the one at index `animationFrame`
when that index is within the sequence (there is no modulo); an
out-of-range `animationFrame` never causes an error, but the avatar is
silently not drawn at all. -/
theorem drawAvatar_frame_selection (s : ClientState) (p : Player) (avatarName : String)
    (av : AvatarData) (frames : List String)
    (hav : p.avatar = some avatarName) (hnm : avatarName ≠ "")
    (hlook : lookupEntry s.avatars avatarName = some av)
    (hframes : lookupEntry av.frames (facingDirection p) = some frames)
    (hcull : ¬(p.x - s.viewportX < -s.avatarSize ∨
        p.x - s.viewportX > s.canvasWidth + s.avatarSize ∨
        p.y - s.viewportY < -s.avatarSize ∨
        p.y - s.viewportY > s.canvasHeight + s.avatarSize)) :
    (∀ (hlt : p.animationFrame.getD 0 < frames.length),
      frames.get ⟨p.animationFrame.getD 0, hlt⟩ ≠ "" →
      drawAvatar s p =
        DrawCall.avatarImage (frames.get ⟨p.animationFrame.getD 0, hlt⟩)
            (p.x - s.viewportX - s.avatarSize / 2) (p.y - s.viewportY - s.avatarSize / 2)
            s.avatarSize s.avatarSize
          :: drawUsernameLabel s p.username (p.x - s.viewportX) (p.y - s.viewportY)) ∧
    (frames.length ≤ p.animationFrame.getD 0 → drawAvatar s p = []) := by
  constructor
  · intro hlt hne2
    have hget : frames.get? (p.animationFrame.getD 0)
        = some (frames.get ⟨p.animationFrame.getD 0, hlt⟩) := List.get?_eq_get hlt
    simp only [drawAvatar, hav, hlook, hframes, hget, if_neg hnm, if_neg hcull, if_neg hne2]
  · intro hge
    have hget : frames.get? (p.animationFrame.getD 0) = none := List.get?_eq_none.mpr hge
    simp only [drawAvatar, hav, hlook, hframes, hget, if_neg hnm, if_neg hcull]

/-- A visible player with an in-range animation frame (index 1 of 2). -/
def playerC3a : Player :=
  { id := "p3a", username := "dave", x := 200, y := 150, facing := some "south"
    animationFrame := some 1, avatar := some "witch" }

/-- A visible player with an out-of-range animation frame (index 7 of 2). -/
def playerC3b : Player :=
  { id := "p3b", username := "erin", x := 300, y := 250, facing := some "south"
    animationFrame := some 7, avatar := some "witch" }

def avatarC3w : AvatarData := { name := "witch", frames := [("south", ["f0", "f1"])] }

def stateC3w : ClientState :=
  { worldImage := true
    worldWidth := 2048
    worldHeight := 2048
    connected := true
    myPlayerId := some "p3a"
    myPlayer := some playerC3a
    players := [("p3a", playerC3a), ("p3b", playerC3b)]
    avatars := [("witch", avatarC3w)]
    keysPressed := []
    viewportX := 0
    viewportY := 0
    avatarSize := 32
    canvasWidth := 800
    canvasHeight := 600 }

theorem playerC3a_on_screen :
    ¬(playerC3a.x - stateC3w.viewportX < -stateC3w.avatarSize ∨
        playerC3a.x - stateC3w.viewportX > stateC3w.canvasWidth + stateC3w.avatarSize ∨
        playerC3a.y - stateC3w.viewportY < -stateC3w.avatarSize ∨
        playerC3a.y - stateC3w.viewportY > stateC3w.canvasHeight + stateC3w.avatarSize) := by
  norm_num [playerC3a, stateC3w]

theorem playerC3b_on_screen :
    ¬(playerC3b.x - stateC3w.viewportX < -stateC3w.avatarSize ∨
        playerC3b.x - stateC3w.viewportX > stateC3w.canvasWidth + stateC3w.avatarSize ∨
        playerC3b.y - stateC3w.viewportY < -stateC3w.avatarSize ∨
        playerC3b.y - stateC3w.viewportY > stateC3w.canvasHeight + stateC3w.avatarSize) := by
  norm_num [playerC3b, stateC3w]

/-- C3 witness: the amended frame selection at concrete visible players,
one in range (frame "f1" drawn) and one out of range (skipped). -/
theorem drawAvatar_frame_selection_witness :
    drawAvatar stateC3w playerC3a =
      DrawCall.avatarImage "f1"
          (playerC3a.x - stateC3w.viewportX - stateC3w.avatarSize / 2)
          (playerC3a.y - stateC3w.viewportY - stateC3w.avatarSize / 2)
          stateC3w.avatarSize stateC3w.avatarSize
        :: drawUsernameLabel stateC3w playerC3a.username
            (playerC3a.x - stateC3w.viewportX) (playerC3a.y - stateC3w.viewportY) ∧
    drawAvatar stateC3w playerC3b = [] :=
  ⟨(drawAvatar_frame_selection stateC3w playerC3a "witch" avatarC3w ["f0", "f1"]
      rfl (by decide) rfl rfl playerC3a_on_screen).1 (by decide) (by decide),
   (drawAvatar_frame_selection stateC3w playerC3b "witch" avatarC3w ["f0", "f1"]
      rfl (by decide) rfl rfl playerC3b_on_screen).2 (by decide)⟩

/-! ## C4 -/

/-- A player whose avatar name is not in the avatar store. -/
def playerC4 : Player :=
  { id := "p4", username := "gina", x := 100, y := 100, facing := some "south"
    animationFrame := some 0, avatar := some "missing" }

def stateC4 : ClientState :=
  { worldImage := true
    worldWidth := 2048
    worldHeight := 2048
    connected := true
    myPlayerId := some "p4"
    myPlayer := some playerC4
    players := [("p4", playerC4)]
    avatars := []
    keysPressed := []
    viewportX := 0
    viewportY := 0
    avatarSize := 32
    canvasWidth := 800
    canvasHeight := 600 }

/-- C4 counterexample: a player whose bounding box intersects the expanded
surface still produces zero draw calls when its avatar definition is
unknown — "intersecting implies exactly one avatar draw call and one label
draw call" does not hold for every player. -/
theorem cull_draw_calls_counterexample :
    ¬ bboxFullyOutsideSpec stateC4 (playerC4.x - stateC4.viewportX)
        (playerC4.y - stateC4.viewportY) ∧
    lookupEntry stateC4.avatars "missing" = none ∧
    drawAvatar stateC4 playerC4 = [] := by
  refine ⟨?_, rfl, rfl⟩
  norm_num [bboxFullyOutsideSpec, stateC4, playerC4]

/-- C4 amended: for a player whose avatar is known, whose facing direction
resolves to a frame at `animationFrame` with non-empty image data, and
whose username is non-empty: if the avatar's bounding box at its screen
position lies fully outside the surface expanded by half the avatar size
on every side, the avatar pass issues zero draw calls for it; otherwise it
issues exactly one avatar image draw call plus the single label pass
(one stroke call and one fill call). -/
theorem cull_iff_draw_calls (s : ClientState) (p : Player) (avatarName : String)
    (av : AvatarData) (frames : List String) (frameRef : String)
    (hav : p.avatar = some avatarName) (hnm : avatarName ≠ "")
    (hlook : lookupEntry s.avatars avatarName = some av)
    (hframes : lookupEntry av.frames (facingDirection p) = some frames)
    (hget : frames.get? (p.animationFrame.getD 0) = some frameRef)
    (hfr : frameRef ≠ "") (hun : p.username ≠ "") :
    (bboxFullyOutsideSpec s (p.x - s.viewportX) (p.y - s.viewportY) →
      drawAvatar s p = []) ∧
    (¬ bboxFullyOutsideSpec s (p.x - s.viewportX) (p.y - s.viewportY) →
      drawAvatar s p =
        [DrawCall.avatarImage frameRef (p.x - s.viewportX - s.avatarSize / 2)
            (p.y - s.viewportY - s.avatarSize / 2) s.avatarSize s.avatarSize,
         DrawCall.strokeLabel p.username (p.x - s.viewportX)
            (p.y - s.viewportY - s.avatarSize / 2 - 5),
         DrawCall.fillLabel p.username (p.x - s.viewportX)
            (p.y - s.viewportY - s.avatarSize / 2 - 5)]) := by
  have h1 : (p.x - s.viewportX) + s.avatarSize / 2 < -(s.avatarSize / 2)
      ↔ p.x - s.viewportX < -s.avatarSize := by constructor <;> intro h <;> linarith
  have h2 : (p.x - s.viewportX) - s.avatarSize / 2 > s.canvasWidth + s.avatarSize / 2
      ↔ p.x - s.viewportX > s.canvasWidth + s.avatarSize := by
    constructor <;> intro h <;> linarith
  have h3 : (p.y - s.viewportY) + s.avatarSize / 2 < -(s.avatarSize / 2)
      ↔ p.y - s.viewportY < -s.avatarSize := by constructor <;> intro h <;> linarith
  have h4 : (p.y - s.viewportY) - s.avatarSize / 2 > s.canvasHeight + s.avatarSize / 2
      ↔ p.y - s.viewportY > s.canvasHeight + s.avatarSize := by
    constructor <;> intro h <;> linarith
  have hequiv : bboxFullyOutsideSpec s (p.x - s.viewportX) (p.y - s.viewportY)
      ↔ (p.x - s.viewportX < -s.avatarSize ∨
          p.x - s.viewportX > s.canvasWidth + s.avatarSize ∨
          p.y - s.viewportY < -s.avatarSize ∨
          p.y - s.viewportY > s.canvasHeight + s.avatarSize) := by
    unfold bboxFullyOutsideSpec
    rw [h1, h2, h3, h4]
  constructor
  · intro hout
    have hc := hequiv.mp hout
    simp only [drawAvatar, hav, hlook, if_neg hnm, if_pos hc]
  · intro hin
    have hc : ¬(p.x - s.viewportX < -s.avatarSize ∨
        p.x - s.viewportX > s.canvasWidth + s.avatarSize ∨
        p.y - s.viewportY < -s.avatarSize ∨
        p.y - s.viewportY > s.canvasHeight + s.avatarSize) :=
      fun hcc => hin (hequiv.mpr hcc)
    simp only [drawAvatar, hav, hlook, hframes, hget, if_neg hnm, if_neg hc, if_neg hfr,
      drawUsernameLabel, if_neg hun]

/-- A player far outside the surface (screen x = 2000 on an 800-wide
canvas), with a known avatar. -/
def playerC4far : Player :=
  { id := "p4f", username := "hank", x := 2000, y := 50, facing := some "south"
    animationFrame := some 0, avatar := some "orc" }

/-- A player on the surface with the same known avatar. -/
def playerC4near : Player :=
  { id := "p4n", username := "iris", x := 100, y := 100, facing := some "south"
    animationFrame := some 0, avatar := some "orc" }

def avatarC4 : AvatarData := { name := "orc", frames := [("south", ["o0"])] }

def stateC4w : ClientState :=
  { worldImage := true
    worldWidth := 2048
    worldHeight := 2048
    connected := true
    myPlayerId := some "p4n"
    myPlayer := some playerC4near
    players := [("p4f", playerC4far), ("p4n", playerC4near)]
    avatars := [("orc", avatarC4)]
    keysPressed := []
    viewportX := 0
    viewportY := 0
    avatarSize := 32
    canvasWidth := 800
    canvasHeight := 600 }

theorem playerC4far_outside :
    bboxFullyOutsideSpec stateC4w (playerC4far.x - stateC4w.viewportX)
      (playerC4far.y - stateC4w.viewportY) := by
  norm_num [bboxFullyOutsideSpec, stateC4w, playerC4far]

theorem playerC4near_inside :
    ¬ bboxFullyOutsideSpec stateC4w (playerC4near.x - stateC4w.viewportX)
      (playerC4near.y - stateC4w.viewportY) := by
  norm_num [bboxFullyOutsideSpec, stateC4w, playerC4near]

/-- C4 witness: the amended culling behavior at two concrete players, one
fully outside the expanded surface (zero calls) and one intersecting it
(one avatar draw plus the stroke/fill label pass). -/
theorem cull_iff_draw_calls_witness :
    drawAvatar stateC4w playerC4far = [] ∧
    drawAvatar stateC4w playerC4near =
      [DrawCall.avatarImage "o0"
          (playerC4near.x - stateC4w.viewportX - stateC4w.avatarSize / 2)
          (playerC4near.y - stateC4w.viewportY - stateC4w.avatarSize / 2)
          stateC4w.avatarSize stateC4w.avatarSize,
       DrawCall.strokeLabel playerC4near.username (playerC4near.x - stateC4w.viewportX)
          (playerC4near.y - stateC4w.viewportY - stateC4w.avatarSize / 2 - 5),
       DrawCall.fillLabel playerC4near.username (playerC4near.x - stateC4w.viewportX)
          (playerC4near.y - stateC4w.viewportY - stateC4w.avatarSize / 2 - 5)] :=
  ⟨(cull_iff_draw_calls stateC4w playerC4far "orc" avatarC4 ["o0"] "o0"
      rfl (by decide) rfl rfl rfl (by decide) (by decide)).1 playerC4far_outside,
   (cull_iff_draw_calls stateC4w playerC4near "orc" avatarC4 ["o0"] "o0"
      rfl (by decide) rfl rfl rfl (by decide) (by decide)).2 playerC4near_inside⟩

end MmoClient
